import Mathlib

/-!
# Verification of the AI Resume Co-pilot application

A shallow embedding of `src/Super30_ResumeBuilder.py` (a single-file
Streamlit application) together with proofs about its behaviour.

Modelling conventions:
* Python strings are Lean `String`s; where induction over characters is
  needed, `List Char` mirrors occur and are tied back by `String.mk`/`toList`.
* The LLM backend is an oracle function parameter: each generator wraps
  `chain.invoke`, i.e. prompt construction, one network call, and output
  parsing; the oracle abstracts that whole round trip as a function of the
  data inputs that the source actually interpolates into the prompt.
* The JSON dictionaries produced by the LLM are modelled as structures whose
  fields are `Option`-valued, so that a missing key is representable;
  Python's `dict.get(k, default)` becomes `Option.getD`, and a bare
  subscript `d[k]` becomes a `match` that yields `Except.error ()` (the
  `KeyError`) when the key is absent.
* Streamlit's rerun model is irrelevant to the claims; each button handler
  is embedded as a pure function from its inputs and the prior session
  state to an outcome record that also counts LLM invocations and records
  which inline messages were emitted.
-/

/-! ## Python string primitives (faithful to CPython semantics on ASCII) -/

/-- Characters removed by Python `str.strip()` (ASCII whitespace). -/
def isPyWs (c : Char) : Bool :=
  c = ' ' || c = '\t' || c = '\n' || c = '\r' || c = '\x0b' || c = '\x0c'

/-- Python `str.strip()` on a character list: drop whitespace from both ends. -/
def pyStrip (l : List Char) : List Char :=
  ((l.dropWhile isPyWs).reverse.dropWhile isPyWs).reverse

/-- Python `str.strip()` on a `String`. -/
def pyStripStr (s : String) : String :=
  String.mk (pyStrip s.toList)

/-- Python `str.split(',')`: split on every comma, keeping empty pieces;
`"".split(',')` is `[""]`. -/
def pySplitComma : List Char → List (List Char)
  | [] => [[]]
  | c :: cs =>
    if c = ',' then [] :: pySplitComma cs
    else (c :: (pySplitComma cs).headI) :: (pySplitComma cs).tail

/-- Python `", ".join(items)` on character lists. -/
def joinCommaSpace : List (List Char) → List Char
  | [] => []
  | [x] => x
  | x :: y :: rest => x ++ ',' :: ' ' :: joinCommaSpace (y :: rest)

/-- Source line 246: `[skill.strip() for skill in s.split(',')]` on character
lists. -/
def normalizeSkillsChars (l : List Char) : List (List Char) :=
  (pySplitComma l).map pyStrip

/-- Source line 246 at `String` level. -/
def normalizeSkillsStr (s : String) : List String :=
  (pySplitComma s.toList).map (fun cs => String.mk (pyStrip cs))

/-- Source line 229: `", ".join(skills_list)` at `String` level. -/
def joinCommaSpaceStr (l : List String) : String :=
  String.mk (joinCommaSpace (l.map String.toList))

/-! ## Data model: the `ResumeRecord` dictionary

The LLM's JSON reply is a Python dict. The claims concern the documented key
set, and whether a key may be absent; each documented key is therefore an
`Option`-valued field (`none` = key missing from the dict). -/

/-- The `contact` sub-dictionary with keys `email`, `phone`, `linkedin_url`. -/
structure ContactInfo where
  email : Option String
  phone : Option String
  linkedin_url : Option String
deriving DecidableEq

/-- One `experience` entry: keys `title`, `company`, `duration`, `description`. -/
structure ExperienceEntry where
  title : Option String
  company : Option String
  duration : Option String
  description : Option String
deriving DecidableEq

/-- One `education` entry: keys `institution`, `degree`, `duration`. -/
structure EducationEntry where
  institution : Option String
  degree : Option String
  duration : Option String
deriving DecidableEq

/-- The `skills` value is either a list of strings (as produced by the LLM)
or, transiently after a UI edit (source line 232), one comma-separated
string; the source tests this with `isinstance(..., str)`. -/
inductive SkillsVal where
  | strVal (s : String)
  | listVal (l : List String)
deriving DecidableEq

/-- The structured resume dictionary; `none` models a missing key. -/
structure ResumeRecord where
  name : Option String
  contact : Option ContactInfo
  summary : Option String
  experience : Option (List ExperienceEntry)
  education : Option (List EducationEntry)
  skills : Option SkillsVal
deriving DecidableEq

/-- A record with every key missing (e.g. an LLM reply `\x7b\x7d`). -/
def emptyRecord : ResumeRecord :=
  { name := none, contact := none, summary := none, experience := none,
    education := none, skills := none }

/-- `st.session_state` as initialised at lines 136-141: the current record,
the current markdown document, and the current cover letter, each possibly
absent (`None`). -/
structure SessionState where
  resume_data : Option ResumeRecord
  markdown_resume : Option String
  cover_letter : Option String
deriving DecidableEq

/-! ## Document Text Extractor (lines 18-29)

`fitz.open` either raises (corrupt stream) or yields a sequence of pages;
each `page.get_text()` either returns that page's text or raises. The whole
body sits in one `try` whose `except` shows `st.error` and returns `None`;
`doc.close()` is only reached when the page loop finishes. -/

/-- One page's `get_text()` behaviour: a text, or an exception. -/
inductive PageRead where
  | ok (text : String)
  | raise
deriving DecidableEq

/-- The parsing behaviour of the uploaded stream: `fitz.open` raises, or
yields the given pages. -/
inductive PdfParse where
  | fail
  | pages (ps : List PageRead)
deriving DecidableEq

/-- Observable outcome of `extract_text_from_pdf`: the returned value
(`none` = Python `None`), whether `st.error` fired, and whether the `fitz`
document handle was opened respectively closed. -/
structure ExtractResult where
  text : Option String
  errorShown : Bool
  handleOpened : Bool
  handleClosed : Bool
deriving DecidableEq

/-- The page loop of lines 22-26, after a successful `fitz.open`: `acc` is
the `text` accumulator. A raising page jumps to the `except` handler (line
27) with the handle still open; an exhausted loop reaches `doc.close()`. -/
def extractGo : List PageRead → String → ExtractResult
  | [], acc =>
    { text := some acc, errorShown := false, handleOpened := true, handleClosed := true }
  | PageRead.raise :: _, _ =>
    { text := none, errorShown := true, handleOpened := true, handleClosed := false }
  | PageRead.ok t :: rest, acc => extractGo rest (acc ++ t)

/-- Lines 18-29: `extract_text_from_pdf`. When `fitz.open` itself raises, no
handle exists and the `except` handler reports the error and returns `None`. -/
def extract_text_from_pdf : PdfParse → ExtractResult
  | PdfParse.fail =>
    { text := none, errorShown := true, handleOpened := false, handleClosed := false }
  | PdfParse.pages ps => extractGo ps ""

/-! ## Resume Structuring Generator and its cache (lines 31-48)

`generate_resume_from_text` is decorated with `@st.cache_data`; its first
parameter is spelled `_llm`, and Streamlit excludes underscore-prefixed
parameters from the cache key, so the memo key is the `text` argument
alone. The oracle `llm` abstracts `chain.invoke` plus JSON parsing. -/

/-- The per-session `st.cache_data` store for the structuring generator,
plus a counter of outbound LLM calls actually performed. -/
structure StructuringCache where
  entries : List (String × ResumeRecord)
  llmCalls : Nat
deriving DecidableEq

/-- Lines 31-48 under `@st.cache_data`: look the text up in the cache; on a
miss, invoke the LLM once and record the result. -/
def generate_resume_from_text (llm : String → ResumeRecord) (text : String)
    (c : StructuringCache) : ResumeRecord × StructuringCache :=
  match c.entries.lookup text with
  | some r => (r, c)
  | none =>
    let r := llm text
    (r, { entries := (text, r) :: c.entries, llmCalls := c.llmCalls + 1 })

/-! ## Job Tailoring Generator (lines 50-67)

`customize_resume_for_job` builds a prompt from `json.dumps(resume_data)`
and the job description, invokes the LLM once and returns the parsed JSON
reply as-is; nothing in the function compares the reply with the input. -/

/-- Lines 50-67: the returned record is exactly the LLM's parsed reply. -/
def customize_resume_for_job (llm : ResumeRecord → String → ResumeRecord)
    (resume_data : ResumeRecord) (job_description : String) : ResumeRecord :=
  llm resume_data job_description

/-- The fields the tailoring prompt tells the LLM to leave alone: `name`,
`contact`, `education`, `skills` identical between output and input. -/
def preservesUntouched (out inp : ResumeRecord) : Prop :=
  out.name = inp.name ∧ out.contact = inp.contact ∧
  out.education = inp.education ∧ out.skills = inp.skills

/-! ## The "Generate & Customize" button handler (lines 171-191) -/

/-- Observable outcome of one pass through the handler body: the resulting
session state, which inline messages fired, and how many times each
LLM-backed generator was invoked. -/
structure GenOutcome where
  state : SessionState
  configErrorShown : Bool
  extractErrorShown : Bool
  structuringCalls : Nat
  tailoringCalls : Nat
  successShown : Bool
deriving DecidableEq

/-- Lines 171-191, in source order: clear `markdown_resume` and
`cover_letter` (172-173); report a configuration error if the credential is
empty (174-175) or no document is uploaded (176-177); otherwise extract
(181), and only `if document_text:` is truthy (183) run the structuring
generator (184) and, `if job_description.strip():` (185), the tailoring
generator (186), storing the result (190) and reporting success (191). -/
def generateHandler (llmStruct : String → ResumeRecord)
    (llmTailor : ResumeRecord → String → ResumeRecord)
    (groq_api_key : String) (uploaded_pdf : Option PdfParse)
    (job_description : String) (s0 : SessionState) : GenOutcome :=
  let s : SessionState := { s0 with markdown_resume := none, cover_letter := none }
  if groq_api_key.isEmpty then
    { state := s, configErrorShown := true, extractErrorShown := false,
      structuringCalls := 0, tailoringCalls := 0, successShown := false }
  else
    match uploaded_pdf with
    | none =>
      { state := s, configErrorShown := true, extractErrorShown := false,
        structuringCalls := 0, tailoringCalls := 0, successShown := false }
    | some pdf =>
      let ex := extract_text_from_pdf pdf
      match ex.text with
      | none =>
        { state := s, configErrorShown := false, extractErrorShown := ex.errorShown,
          structuringCalls := 0, tailoringCalls := 0, successShown := false }
      | some t =>
        if t.isEmpty then
          { state := s, configErrorShown := false, extractErrorShown := ex.errorShown,
            structuringCalls := 0, tailoringCalls := 0, successShown := false }
        else
          let rj := llmStruct t
          if (pyStripStr job_description).isEmpty then
            { state := { s with resume_data := some rj },
              configErrorShown := false, extractErrorShown := ex.errorShown,
              structuringCalls := 1, tailoringCalls := 0, successShown := true }
          else
            { state := { s with resume_data := some (customize_resume_for_job llmTailor rj job_description) },
              configErrorShown := false, extractErrorShown := ex.errorShown,
              structuringCalls := 1, tailoringCalls := 1, successShown := true }

/-! ## Editor read sites (lines 196-232) and the skills subscript sites -/

/-- The values displayed by the editable form fields, one per read site in
lines 198-232. Every one of these reads goes through `dict.get` with a
default. -/
structure EditorView where
  name : String
  email : String
  phone : String
  linkedin_url : String
  summary : String
  experience : List (String × String × String × String)
  education : List (String × String × String)
  skillsStr : String
deriving DecidableEq

/-- Line 229 context (lines 227-232): `skills_list = resume.get('skills', [])`;
a list is joined with `", "`, a string is shown as-is. -/
def skillsDisplay : SkillsVal → String
  | SkillsVal.listVal l => joinCommaSpaceStr l
  | SkillsVal.strVal s => s

/-- The editor reads of lines 198-232: `resume.get('name', '')`,
`resume.get('contact', dict())` then `.get` on each contact key,
`resume.get('summary', '')`, `.get(..., '')` on every experience and
education field, and the skills display of lines 227-232. -/
def editorView (r : ResumeRecord) : EditorView :=
  let contact := r.contact.getD { email := none, phone := none, linkedin_url := none }
  { name := r.name.getD ""
    email := contact.email.getD ""
    phone := contact.phone.getD ""
    linkedin_url := contact.linkedin_url.getD ""
    summary := r.summary.getD ""
    experience := (r.experience.getD []).map fun e =>
      (e.title.getD "", e.company.getD "", e.duration.getD "", e.description.getD "")
    education := (r.education.getD []).map fun e =>
      (e.institution.getD "", e.degree.getD "", e.duration.getD "")
    skillsStr := skillsDisplay (r.skills.getD (SkillsVal.listVal [])) }

/-- Lines 245-246 (and identically 261-262 and 280-281): the handler reads
`resume_data['skills']` by bare subscript — a `KeyError` if the key is
missing — and, when the value is a string, replaces it by
`[skill.strip() for skill in ....split(',')]`. -/
def normalize_skills_in_record (r : ResumeRecord) : Except Unit ResumeRecord :=
  match r.skills with
  | none => Except.error ()
  | some (SkillsVal.strVal s) =>
    Except.ok { r with skills := some (SkillsVal.listVal (normalizeSkillsStr s)) }
  | some (SkillsVal.listVal _) => Except.ok r

/-! ## Download file names (lines 292-305) -/

/-- Python `name.replace(' ', '_')`. -/
def pyReplaceSpaceUnderscore (l : List Char) : List Char :=
  l.map fun c => if c = ' ' then '_' else c

/-- Lines 295 and 303: `resume_data.get('name', 'resume').replace(' ', '_').lower()`
(ASCII lower-casing, which covers every character the claim exercises). -/
def downloadBase (r : ResumeRecord) : String :=
  String.mk ((pyReplaceSpaceUnderscore (r.name.getD "resume").toList).map Char.toLower)

/-- Line 295: the resume download's `file_name`. -/
def resume_file_name (r : ResumeRecord) : String :=
  downloadBase r ++ "_resume.md"

/-- Line 303: the cover-letter download's `file_name`. -/
def cover_letter_file_name (r : ResumeRecord) : String :=
  downloadBase r ++ "_cover_letter.md"

/-- The spec's description of the name transformation, per character: a
space becomes an underscore, every other character is lower-cased and
otherwise unchanged. -/
def specNameChar (c : Char) : Char :=
  if c = ' ' then '_' else c.toLower

/-! ## Helper lemmas about the string primitives -/

theorem pySplitComma_ne_nil (l : List Char) : pySplitComma l ≠ [] := by
  cases l with
  | nil => simp [pySplitComma]
  | cons c cs =>
    simp only [pySplitComma]
    by_cases hc : c = ','
    · simp [hc]
    · simp [if_neg hc]

theorem pySplitComma_nocomma (l : List Char) (h : ',' ∉ l) :
    pySplitComma l = [l] := by
  induction l with
  | nil => rfl
  | cons c cs ih =>
    have hc : ¬ (c = ',') := fun hh => h (hh ▸ List.mem_cons_self c cs)
    have hcs := ih (fun hh => h (List.mem_cons_of_mem c hh))
    simp only [pySplitComma]
    rw [if_neg hc, hcs]
    rfl

theorem pySplitComma_append (xs rest : List Char) (h : ',' ∉ xs) :
    pySplitComma (xs ++ ',' :: rest) = xs :: pySplitComma rest := by
  induction xs with
  | nil => simp [pySplitComma]
  | cons c cs ih =>
    have hc : ¬ (c = ',') := fun hh => h (hh ▸ List.mem_cons_self c cs)
    have hcs := ih (fun hh => h (List.mem_cons_of_mem c hh))
    rw [List.cons_append]
    simp only [pySplitComma]
    rw [if_neg hc, hcs]
    simp

theorem pyStrip_space_cons (l : List Char) : pyStrip (' ' :: l) = pyStrip l := by
  simp [pyStrip, List.dropWhile_cons, isPyWs]

theorem map_pyStrip_space (l : List Char) :
    (pySplitComma (' ' :: l)).map pyStrip = (pySplitComma l).map pyStrip := by
  have hne := pySplitComma_ne_nil l
  cases hsp : pySplitComma l with
  | nil => exact absurd hsp hne
  | cons a t =>
    simp only [pySplitComma]
    rw [if_neg (by decide : ¬ (' ' = ',')), hsp]
    simp [pyStrip_space_cons]

theorem normalize_join_roundtrip (items : List (List Char)) (hne : items ≠ [])
    (h : ∀ x ∈ items, ',' ∉ x ∧ pyStrip x = x) :
    normalizeSkillsChars (joinCommaSpace items) = items := by
  induction items with
  | nil => exact absurd rfl hne
  | cons x rest ih =>
    have hx := h x (List.mem_cons_self x rest)
    cases rest with
    | nil =>
      simp [joinCommaSpace, normalizeSkillsChars,
        pySplitComma_nocomma x hx.1, hx.2]
    | cons y rest2 =>
      have hrest : ∀ z ∈ y :: rest2, ',' ∉ z ∧ pyStrip z = z :=
        fun z hz => h z (List.mem_cons_of_mem x hz)
      have ihr := ih (by simp) hrest
      show normalizeSkillsChars (x ++ ',' :: ' ' :: joinCommaSpace (y :: rest2)) = _
      unfold normalizeSkillsChars
      rw [pySplitComma_append _ _ hx.1, List.map_cons, hx.2, map_pyStrip_space]
      exact congrArg (List.cons x) ihr

/-! ## Remaining helper lemmas -/

theorem extractGo_invariants (ps : List PageRead) (acc : String) :
    (extractGo ps acc).handleOpened = true ∧
    (extractGo ps acc).handleClosed = (extractGo ps acc).text.isSome ∧
    (extractGo ps acc).errorShown = !(extractGo ps acc).text.isSome := by
  induction ps generalizing acc with
  | nil => simp [extractGo]
  | cons p rest ih =>
    cases p with
    | ok t => simpa [extractGo] using ih (acc ++ t)
    | raise => simp [extractGo]

theorem extract_errorShown_eq (p : PdfParse) :
    (extract_text_from_pdf p).errorShown = !(extract_text_from_pdf p).text.isSome := by
  cases p with
  | fail => simp [extract_text_from_pdf]
  | pages ps => exact (extractGo_invariants ps "").2.2

theorem toLower_after_replace (c : Char) :
    Char.toLower (if c = ' ' then '_' else c) = specNameChar c := by
  by_cases hc : c = ' '
  · simp only [hc, if_pos rfl, specNameChar, if_pos rfl]
    decide
  · simp [specNameChar, hc]

theorem downloadBase_spec (r : ResumeRecord) (n : String) (hn : r.name = some n) :
    downloadBase r = String.mk (n.toList.map specNameChar) := by
  have hfun : (fun c => Char.toLower (if c = ' ' then '_' else c)) = specNameChar :=
    funext toLower_after_replace
  simp [downloadBase, hn, pyReplaceSpaceUnderscore, List.map_map, Function.comp_def, hfun]

/-! ## Claim theorems -/

/-- C2: skills interconversion is an exact round trip: normalizing the
string "Python, SQL, Leadership" yields exactly ["Python", "SQL",
"Leadership"] and joining that list with ", " reproduces the string; and
for every nonempty item list whose items contain no comma and carry no
leading/trailing whitespace (so the joined string has exactly one space
after each comma), splitting the ", "-joined string and stripping each
piece gives back the items, and re-joining reproduces the string. -/
theorem c2_skills_roundtrip :
    (normalizeSkillsStr "Python, SQL, Leadership" = ["Python", "SQL", "Leadership"] ∧
      joinCommaSpaceStr ["Python", "SQL", "Leadership"] = "Python, SQL, Leadership") ∧
    ∀ items : List (List Char), items ≠ [] →
      (∀ x ∈ items, ',' ∉ x ∧ pyStrip x = x) →
      normalizeSkillsChars (joinCommaSpace items) = items ∧
      joinCommaSpace (normalizeSkillsChars (joinCommaSpace items)) = joinCommaSpace items := by
  refine ⟨⟨by decide, by decide⟩, ?_⟩
  intro items hne h
  have h1 := normalize_join_roundtrip items hne h
  exact ⟨h1, by rw [h1]⟩

/-- Witness for C2 at the claim's concrete skills list. -/
theorem c2_witness :
    normalizeSkillsChars
        (joinCommaSpace ["Python".toList, "SQL".toList, "Leadership".toList]) =
      ["Python".toList, "SQL".toList, "Leadership".toList] :=
  (c2_skills_roundtrip.2 ["Python".toList, "SQL".toList, "Leadership".toList]
    (by decide) (by decide)).1

/-- C4: the Resume Structuring Generator is memoized for the session:
starting from the empty cache, invoking it twice with an identical
(client, extracted-text) pair performs exactly one outbound LLM call, and
the second invocation returns the cached result. -/
theorem c4_structuring_memoized_single_llm_call
    (llm : String → ResumeRecord) (text : String) :
    ((generate_resume_from_text llm text { entries := [], llmCalls := 0 }).2.llmCalls = 1) ∧
    ((generate_resume_from_text llm text
        (generate_resume_from_text llm text { entries := [], llmCalls := 0 }).2).2.llmCalls = 1) ∧
    ((generate_resume_from_text llm text
        (generate_resume_from_text llm text { entries := [], llmCalls := 0 }).2).1 =
      (generate_resume_from_text llm text { entries := [], llmCalls := 0 }).1) := by
  simp [generate_resume_from_text, List.lookup]

/-- C9: the download file names: for every record with a name, the resume
download's file name is the name with each space replaced by an underscore
and then lower-cased, all other characters unchanged, suffixed
"_resume.md"; the cover-letter download uses the same transformed name
suffixed "_cover_letter.md"; in particular "Jane Q. Doe" yields
"jane_q._doe_resume.md" and "jane_q._doe_cover_letter.md". -/
theorem c9_download_file_names :
    (∀ (r : ResumeRecord) (n : String), r.name = some n →
      resume_file_name r = String.mk (n.toList.map specNameChar) ++ "_resume.md" ∧
      cover_letter_file_name r = String.mk (n.toList.map specNameChar) ++ "_cover_letter.md") ∧
    resume_file_name { emptyRecord with name := some "Jane Q. Doe" } =
      "jane_q._doe_resume.md" ∧
    cover_letter_file_name { emptyRecord with name := some "Jane Q. Doe" } =
      "jane_q._doe_cover_letter.md" := by
  refine ⟨?_, by decide, by decide⟩
  intro r n hn
  have hbase := downloadBase_spec r n hn
  constructor <;> simp [resume_file_name, cover_letter_file_name, hbase]

/-- Witness for C9 at the record named "Jane Q. Doe". -/
theorem c9_witness :
    resume_file_name { emptyRecord with name := some "Jane Q. Doe" } =
      String.mk ("Jane Q. Doe".toList.map specNameChar) ++ "_resume.md" :=
  (c9_download_file_names.1 { emptyRecord with name := some "Jane Q. Doe" }
    "Jane Q. Doe" rfl).1

/-- C1 counterexample: with a record, a markdown document and a cover
letter in session state and an empty credential, the handler reports the
configuration error but the markdown document and the cover letter do not
survive: lines 172-173 clear them before the validation of lines 174-177
runs. -/
theorem c1_counterexample_artifacts_cleared :
    (generateHandler (fun _ => emptyRecord) (fun r _ => r) "" none ""
        { resume_data := some emptyRecord, markdown_resume := some "# Old Resume",
          cover_letter := some "Old letter" }).configErrorShown = true ∧
    (generateHandler (fun _ => emptyRecord) (fun r _ => r) "" none ""
        { resume_data := some emptyRecord, markdown_resume := some "# Old Resume",
          cover_letter := some "Old letter" }).state.markdown_resume ≠ some "# Old Resume" ∧
    (generateHandler (fun _ => emptyRecord) (fun r _ => r) "" none ""
        { resume_data := some emptyRecord, markdown_resume := some "# Old Resume",
          cover_letter := some "Old letter" }).state.cover_letter ≠ some "Old letter" := by
  decide

/-- C1 (amended): with a missing credential or missing upload the handler
reports a configuration error, runs no pipeline stage, and leaves the
current ResumeRecord unchanged — but the current MarkupDocument and
cover-letter text are cleared unconditionally before validation. -/
theorem c1_config_error_halts_but_clears_artifacts
    (lS : String → ResumeRecord) (lT : ResumeRecord → String → ResumeRecord)
    (key : String) (pdf : Option PdfParse) (job : String) (s0 : SessionState)
    (h : key.isEmpty = true ∨ pdf = none) :
    (generateHandler lS lT key pdf job s0).configErrorShown = true ∧
    (generateHandler lS lT key pdf job s0).structuringCalls = 0 ∧
    (generateHandler lS lT key pdf job s0).tailoringCalls = 0 ∧
    (generateHandler lS lT key pdf job s0).state.resume_data = s0.resume_data ∧
    (generateHandler lS lT key pdf job s0).state.markdown_resume = none ∧
    (generateHandler lS lT key pdf job s0).state.cover_letter = none := by
  rcases h with hk | hp
  · simp [generateHandler, hk]
  · subst hp
    cases hk : key.isEmpty <;> simp [generateHandler, hk]

/-- Witness for C1 (amended) at an empty credential. -/
theorem c1_witness :
    (generateHandler (fun _ => emptyRecord) (fun r _ => r) "" none "job"
        { resume_data := some emptyRecord, markdown_resume := none,
          cover_letter := none }).configErrorShown = true ∧
    (generateHandler (fun _ => emptyRecord) (fun r _ => r) "" none "job"
        { resume_data := some emptyRecord, markdown_resume := none,
          cover_letter := none }).structuringCalls = 0 ∧
    (generateHandler (fun _ => emptyRecord) (fun r _ => r) "" none "job"
        { resume_data := some emptyRecord, markdown_resume := none,
          cover_letter := none }).tailoringCalls = 0 ∧
    (generateHandler (fun _ => emptyRecord) (fun r _ => r) "" none "job"
        { resume_data := some emptyRecord, markdown_resume := none,
          cover_letter := none }).state.resume_data =
      (({ resume_data := some emptyRecord, markdown_resume := none,
          cover_letter := none } : SessionState)).resume_data ∧
    (generateHandler (fun _ => emptyRecord) (fun r _ => r) "" none "job"
        { resume_data := some emptyRecord, markdown_resume := none,
          cover_letter := none }).state.markdown_resume = none ∧
    (generateHandler (fun _ => emptyRecord) (fun r _ => r) "" none "job"
        { resume_data := some emptyRecord, markdown_resume := none,
          cover_letter := none }).state.cover_letter = none :=
  c1_config_error_halts_but_clears_artifacts (fun _ => emptyRecord) (fun r _ => r)
    "" none "job"
    { resume_data := some emptyRecord, markdown_resume := none, cover_letter := none }
    (Or.inl (by decide))

/-- C5: when the uploaded stream cannot be parsed as a PDF, the extractor
reports the error and returns no text, and the Generate pipeline runs no
LLM generator and leaves the current ResumeRecord unchanged. -/
theorem c5_extract_failure_halts_pipeline
    (lS : String → ResumeRecord) (lT : ResumeRecord → String → ResumeRecord)
    (key : String) (job : String) (s0 : SessionState)
    (hkey : key.isEmpty = false) :
    (extract_text_from_pdf PdfParse.fail).text = none ∧
    (extract_text_from_pdf PdfParse.fail).errorShown = true ∧
    (generateHandler lS lT key (some PdfParse.fail) job s0).extractErrorShown = true ∧
    (generateHandler lS lT key (some PdfParse.fail) job s0).structuringCalls = 0 ∧
    (generateHandler lS lT key (some PdfParse.fail) job s0).tailoringCalls = 0 ∧
    (generateHandler lS lT key (some PdfParse.fail) job s0).state.resume_data =
      s0.resume_data := by
  simp [generateHandler, extract_text_from_pdf, hkey]

/-- Witness for C5 at a concrete credential, job text and state. -/
theorem c5_witness :
    (extract_text_from_pdf PdfParse.fail).text = none ∧
    (extract_text_from_pdf PdfParse.fail).errorShown = true ∧
    (generateHandler (fun _ => emptyRecord) (fun r _ => r) "k"
        (some PdfParse.fail) ""
        { resume_data := some emptyRecord, markdown_resume := none,
          cover_letter := none }).extractErrorShown = true ∧
    (generateHandler (fun _ => emptyRecord) (fun r _ => r) "k"
        (some PdfParse.fail) ""
        { resume_data := some emptyRecord, markdown_resume := none,
          cover_letter := none }).structuringCalls = 0 ∧
    (generateHandler (fun _ => emptyRecord) (fun r _ => r) "k"
        (some PdfParse.fail) ""
        { resume_data := some emptyRecord, markdown_resume := none,
          cover_letter := none }).tailoringCalls = 0 ∧
    (generateHandler (fun _ => emptyRecord) (fun r _ => r) "k"
        (some PdfParse.fail) ""
        { resume_data := some emptyRecord, markdown_resume := none,
          cover_letter := none }).state.resume_data =
      (({ resume_data := some emptyRecord, markdown_resume := none,
          cover_letter := none } : SessionState)).resume_data :=
  c5_extract_failure_halts_pipeline (fun _ => emptyRecord) (fun r _ => r) "k" ""
    { resume_data := some emptyRecord, markdown_resume := none, cover_letter := none }
    (by decide)

/-- C6: in a successful generation cycle whose job-posting text is empty or
whitespace-only, the Tailoring Generator is not invoked and the stored
ResumeRecord is exactly the Structuring Generator's output. -/
theorem c6_blank_job_skips_tailoring
    (lS : String → ResumeRecord) (lT : ResumeRecord → String → ResumeRecord)
    (key : String) (pdf : PdfParse) (job : String) (s0 : SessionState) (t : String)
    (hkey : key.isEmpty = false)
    (htext : (extract_text_from_pdf pdf).text = some t)
    (ht : t.isEmpty = false)
    (hjob : (pyStripStr job).isEmpty = true) :
    (generateHandler lS lT key (some pdf) job s0).tailoringCalls = 0 ∧
    (generateHandler lS lT key (some pdf) job s0).structuringCalls = 1 ∧
    (generateHandler lS lT key (some pdf) job s0).successShown = true ∧
    (generateHandler lS lT key (some pdf) job s0).state.resume_data = some (lS t) := by
  simp [generateHandler, hkey, htext, ht, hjob]

/-- Witness for C6 at a one-page document and a whitespace job text. -/
theorem c6_witness :
    (generateHandler (fun _ => emptyRecord) (fun r _ => r) "k"
        (some (PdfParse.pages [PageRead.ok "profile text"])) " "
        { resume_data := none, markdown_resume := none,
          cover_letter := none }).tailoringCalls = 0 ∧
    (generateHandler (fun _ => emptyRecord) (fun r _ => r) "k"
        (some (PdfParse.pages [PageRead.ok "profile text"])) " "
        { resume_data := none, markdown_resume := none,
          cover_letter := none }).structuringCalls = 1 ∧
    (generateHandler (fun _ => emptyRecord) (fun r _ => r) "k"
        (some (PdfParse.pages [PageRead.ok "profile text"])) " "
        { resume_data := none, markdown_resume := none,
          cover_letter := none }).successShown = true ∧
    (generateHandler (fun _ => emptyRecord) (fun r _ => r) "k"
        (some (PdfParse.pages [PageRead.ok "profile text"])) " "
        { resume_data := none, markdown_resume := none,
          cover_letter := none }).state.resume_data =
      some ((fun _ : String => emptyRecord) "profile text") :=
  c6_blank_job_skips_tailoring (fun _ => emptyRecord) (fun r _ => r) "k"
    (PdfParse.pages [PageRead.ok "profile text"]) " "
    { resume_data := none, markdown_resume := none, cover_letter := none }
    "profile text" (by decide) (by decide) (by decide) (by decide)

/-- C10: when extraction succeeds with an empty text, the Generate action
is a silent no-op except for the artifact clearing: no generator runs, no
record is stored, no error and no success message is shown, and the
markdown and cover-letter artifacts have already been cleared. -/
theorem c10_empty_text_silent_noop
    (lS : String → ResumeRecord) (lT : ResumeRecord → String → ResumeRecord)
    (key : String) (pdf : PdfParse) (job : String) (s0 : SessionState)
    (hkey : key.isEmpty = false)
    (htext : (extract_text_from_pdf pdf).text = some "") :
    (generateHandler lS lT key (some pdf) job s0).structuringCalls = 0 ∧
    (generateHandler lS lT key (some pdf) job s0).tailoringCalls = 0 ∧
    (generateHandler lS lT key (some pdf) job s0).configErrorShown = false ∧
    (generateHandler lS lT key (some pdf) job s0).extractErrorShown = false ∧
    (generateHandler lS lT key (some pdf) job s0).successShown = false ∧
    (generateHandler lS lT key (some pdf) job s0).state.resume_data = s0.resume_data ∧
    (generateHandler lS lT key (some pdf) job s0).state.markdown_resume = none ∧
    (generateHandler lS lT key (some pdf) job s0).state.cover_letter = none := by
  have herr := extract_errorShown_eq pdf
  rw [htext] at herr
  simp only [Option.isSome_some, Bool.not_true] at herr
  have hemp : "".isEmpty = true := by decide
  simp [generateHandler, hkey, htext, herr, hemp]

/-- Witness for C10 at a zero-page document. -/
theorem c10_witness :
    (generateHandler (fun _ => emptyRecord) (fun r _ => r) "k"
        (some (PdfParse.pages [])) "job"
        { resume_data := some emptyRecord, markdown_resume := some "m",
          cover_letter := some "c" }).structuringCalls = 0 ∧
    (generateHandler (fun _ => emptyRecord) (fun r _ => r) "k"
        (some (PdfParse.pages [])) "job"
        { resume_data := some emptyRecord, markdown_resume := some "m",
          cover_letter := some "c" }).tailoringCalls = 0 ∧
    (generateHandler (fun _ => emptyRecord) (fun r _ => r) "k"
        (some (PdfParse.pages [])) "job"
        { resume_data := some emptyRecord, markdown_resume := some "m",
          cover_letter := some "c" }).configErrorShown = false ∧
    (generateHandler (fun _ => emptyRecord) (fun r _ => r) "k"
        (some (PdfParse.pages [])) "job"
        { resume_data := some emptyRecord, markdown_resume := some "m",
          cover_letter := some "c" }).extractErrorShown = false ∧
    (generateHandler (fun _ => emptyRecord) (fun r _ => r) "k"
        (some (PdfParse.pages [])) "job"
        { resume_data := some emptyRecord, markdown_resume := some "m",
          cover_letter := some "c" }).successShown = false ∧
    (generateHandler (fun _ => emptyRecord) (fun r _ => r) "k"
        (some (PdfParse.pages [])) "job"
        { resume_data := some emptyRecord, markdown_resume := some "m",
          cover_letter := some "c" }).state.resume_data =
      (({ resume_data := some emptyRecord, markdown_resume := some "m",
          cover_letter := some "c" } : SessionState)).resume_data ∧
    (generateHandler (fun _ => emptyRecord) (fun r _ => r) "k"
        (some (PdfParse.pages [])) "job"
        { resume_data := some emptyRecord, markdown_resume := some "m",
          cover_letter := some "c" }).state.markdown_resume = none ∧
    (generateHandler (fun _ => emptyRecord) (fun r _ => r) "k"
        (some (PdfParse.pages [])) "job"
        { resume_data := some emptyRecord, markdown_resume := some "m",
          cover_letter := some "c" }).state.cover_letter = none :=
  c10_empty_text_silent_noop (fun _ => emptyRecord) (fun r _ => r) "k"
    (PdfParse.pages []) "job"
    { resume_data := some emptyRecord, markdown_resume := some "m",
      cover_letter := some "c" }
    (by decide) (by decide)

/-- C3 counterexample: the Job Tailoring Generator returns the LLM's parsed
reply verbatim, so an LLM reply that changes the name yields an output
whose name differs from the input's; the universal preservation claim is
false of the code. -/
theorem c3_counterexample_llm_can_rename :
    ¬ ∀ (llm : ResumeRecord → String → ResumeRecord) (r : ResumeRecord) (j : String),
        preservesUntouched (customize_resume_for_job llm r j) r := by
  intro h
  have hx := h (fun _ _ => { emptyRecord with name := some "Mallory" })
      { emptyRecord with name := some "Jane" } "any job"
  have hn := hx.1
  simp [customize_resume_for_job, emptyRecord] at hn

/-- C3 (amended): the Job Tailoring Generator's output is exactly the LLM's
parsed reply, so it has identical name, contact, education and skills to
its input precisely when the LLM's reply preserves those fields — the
prompt requests this but the code does not enforce it. -/
theorem c3_tailoring_preserves_iff_llm_preserves
    (llm : ResumeRecord → String → ResumeRecord) (r : ResumeRecord) (j : String) :
    customize_resume_for_job llm r j = llm r j ∧
    (preservesUntouched (llm r j) r ↔
      preservesUntouched (customize_resume_for_job llm r j) r) :=
  ⟨rfl, Iff.rfl⟩

/-- C7 counterexample: on a record whose skills key is missing, the
skills-normalization read `resume_data['skills']` of line 245 raises
KeyError instead of yielding a default. -/
theorem c7_counterexample_skills_keyerror :
    normalize_skills_in_record emptyRecord = Except.error () := rfl

/-- C7 (amended): every editor read site of lines 198-232 defaults a
missing key to the documented empty value, but the skills-normalization
sites (lines 245-246, 261-262 and 280-281) read the skills key by bare
subscript and raise KeyError when it is missing. -/
theorem c7_reads_default_except_skills_sites :
    editorView emptyRecord =
      { name := "", email := "", phone := "", linkedin_url := "", summary := "",
        experience := [], education := [], skillsStr := "" } ∧
    ∀ r : ResumeRecord, r.skills = none →
      normalize_skills_in_record r = Except.error () := by
  refine ⟨rfl, ?_⟩
  intro r hr
  simp [normalize_skills_in_record, hr]

/-- Witness for C7 (amended): the all-missing record has no skills key and
the normalization read errors on it. -/
theorem c7_witness :
    normalize_skills_in_record
        { name := none, contact := none, summary := none, experience := none,
          education := none, skills := none } = Except.error () :=
  c7_reads_default_except_skills_sites.2
    { name := none, contact := none, summary := none, experience := none,
      education := none, skills := none } rfl

/-- C8 counterexample: a document that opens but whose page read raises
leaves the handle open: the except branch of lines 27-29 returns without
reaching `doc.close()`. -/
theorem c8_counterexample_leak_on_page_error :
    (extract_text_from_pdf (PdfParse.pages [PageRead.raise])).handleOpened = true ∧
    (extract_text_from_pdf (PdfParse.pages [PageRead.raise])).handleClosed = false ∧
    (extract_text_from_pdf (PdfParse.pages [PageRead.raise])).text = none := by
  decide

/-- C8 (amended): the document handle is released exactly when extraction
succeeds; when `fitz.open` itself fails no handle is ever created, and when
a failure occurs after a successful open the handle is not released. -/
theorem c8_handle_closed_iff_success_after_open (p : PdfParse) :
    (extract_text_from_pdf p).handleClosed = (extract_text_from_pdf p).text.isSome ∧
    ((extract_text_from_pdf p).handleOpened = false ↔ p = PdfParse.fail) := by
  cases p with
  | fail => simp [extract_text_from_pdf]
  | pages ps =>
    have h := extractGo_invariants ps ""
    exact ⟨h.2.1, by simp [extract_text_from_pdf, h.1]⟩
